import Mathlib

/-!
Verification development for the mailcow-ai-filter rule engine.

This file gives a shallow embedding, in Lean 4, of the domain core of the
repository: the value objects (`FilterCondition`, `FilterAction`,
`FilterRule`), the `SieveFilter` aggregate, and the four domain services
(`FilterGenerator`, `FilterMatcher`, `FilterValidator`, `PatternDetector`),
translated from `src/src/domain/...`.

Modelling conventions:
 - Python `str` is modelled by `String`; `str.lower()` by an ASCII
   lower-case table (all strings exercised here are ASCII); `str.strip()`
   strips the standard ASCII whitespace characters.
 - Python `float` is modelled by `ℚ` (the numeric literals of the source,
   e.g. `0.1`, are exact decimal fractions, and every comparison proved
   here is robust to the float/rational distinction).
 - Python exceptions are modelled by `Except PyErr`; a dataclass whose
   `__post_init__` validates is embedded as a smart constructor returning
   `Except PyErr`.  Exception *messages* are kept only up to their constant
   part (dynamic f-string fragments are dropped).
 - Python dicts keyed by strings are modelled by association lists in
   insertion order; Python `set` iteration (whose order is unspecified) is
   modelled by first-occurrence de-duplication.
 - Attribute access on a `slots` dataclass that does not declare the
   attribute raises `AttributeError`; this is embedded faithfully where the
   source performs such an access (`rule.enabled`, `rule.match_all`,
   `hasattr(action, "folder")`).
-/

instance {ε α : Type} [DecidableEq ε] [DecidableEq α] : DecidableEq (Except ε α) := fun x y =>
  match x, y with
  | .ok a, .ok b =>
    if h : a = b then isTrue (by rw [h]) else isFalse (fun he => by cases he; exact h rfl)
  | .error a, .error b =>
    if h : a = b then isTrue (by rw [h]) else isFalse (fun he => by cases he; exact h rfl)
  | .ok _, .error _ => isFalse (fun he => by cases he)
  | .error _, .ok _ => isFalse (fun he => by cases he)

/-- Python exception values (only the constant part of the message is kept). -/

inductive PyErr where
  | valueError (msg : String)
  | attributeError (obj attr : String)
  | typeError (msg : String)
  | keyError (key : String)
  deriving DecidableEq, Repr

/-- ASCII lower-casing of one character (`Char.toLower` lower-cases exactly
the basic latin letters), the fragment of Python `str.lower()` exercised by
this code base: no non-ASCII letters occur in any of the embedded constant
tables, and lower-casing never produces '.', which is the only fact the
proofs below use about non-ASCII behaviour. -/

def pyCharLower (c : Char) : Char := Char.toLower c

/-- Python `s.lower()`. -/

def pyLower (s : String) : String := String.mk (s.data.map pyCharLower)

/-- The whitespace characters stripped by Python `str.strip()` (ASCII part). -/

def isPySpace (c : Char) : Bool :=
  c == ' ' || c == '\t' || c == '\n' || c == '\r' || c == '\x0b' || c == '\x0c'

/-- Strip on character lists: drop leading and trailing whitespace. -/

def pyStripL (l : List Char) : List Char :=
  ((l.dropWhile isPySpace).reverse.dropWhile isPySpace).reverse

/-- Python `s.strip()`. -/

def pyStrip (s : String) : String := String.mk (pyStripL s.data)

/-- Does `pre` lead the list (prefix test on character lists)? -/

def listLeads : List Char → List Char → Bool
  | [], _ => true
  | _ :: _, [] => false
  | a :: as, b :: bs => a == b && listLeads as bs

/-- Substring occurrence test on character lists. -/

def listHasSub (needle : List Char) : List Char → Bool
  | [] => listLeads needle []
  | b :: bs => listLeads needle (b :: bs) || listHasSub needle bs

/-- Python `needle in haystack` on strings (substring test). -/

def pyIn (needle haystack : String) : Bool := listHasSub needle.data haystack.data

/-- Python `s.startswith(pre)`. -/

def pyStartsWith (s pre : String) : Bool := listLeads pre.data s.data

/-- Python `s[n:]` (drop the first `n` characters). -/

def pyDrop (s : String) (n : Nat) : String := String.mk (s.data.drop n)

/-- Python `s.split(sep)` for a one-character separator: splits at every
occurrence, keeping empty pieces (`"".split(",") == [""]`). -/

def pySplitChar (sep : Char) : List Char → List (List Char)
  | [] => [[]]
  | c :: cs =>
    let r := pySplitChar sep cs
    if c == sep then [] :: r
    else
      match r with
      | [] => [[c]]
      | w :: ws => (c :: w) :: ws

/-- Python `s.split(sep)` on strings. -/

def pySplit (sep : Char) (s : String) : List String :=
  (pySplitChar sep s.data).map String.mk

/-- Rational multiplication, implemented on `mkRat` so that it evaluates by
kernel reduction (Mathlib's `*` on `ℚ` does not); proved equal to `*` in
`ratMul_eq` below. -/

def ratMul (a b : ℚ) : ℚ := mkRat (a.num * b.num) (a.den * b.den)

/-- Rational division, implemented on `mkRat` so that it evaluates by kernel
reduction; proved equal to `/` in `ratDiv_eq` below (in particular division
by zero yields zero — never exercised: every divisor in the source is a
positive count). -/

def ratDiv (a b : ℚ) : ℚ :=
  let n : Int := a.num * (b.den : Int)
  let m : Int := (a.den : Int) * b.num
  if m < 0 then mkRat (-n) m.natAbs else mkRat n m.natAbs

/-! ## `filter_condition.py` -/

/-- `INVALID_DOMAINS`: placeholder domains rejected by validation. -/

def INVALID_DOMAINS : List String :=
  ["example.com", "example.org", "example.net", "test.com", "test.org",
   "test.net", "unsorted.com", "random.com", "misc.com", "placeholder.com",
   "dummy.com", "localhost", "127.0.0.1"]

/-- `GENERIC_DOMAINS`: overly generic domains rejected by validation. -/

def GENERIC_DOMAINS : List String :=
  ["email.com", "mail.com", "app.com", "security.com", "bank.com", "bank.de",
   "shop.com", "store.com"]

/-- `ConditionType` enum. -/

inductive ConditionType where
  | HEADER_CONTAINS | HEADER_IS | ADDRESS_DOMAIN | ADDRESS_IS
  | BODY_CONTAINS | SIZE_OVER | SIZE_UNDER
  deriving DecidableEq, Repr

/-- `MatchType` enum. -/

inductive MatchType where
  | IS | CONTAINS | MATCHES | REGEX
  deriving DecidableEq, Repr

/-- `FilterCondition` frozen dataclass (fields in source order). -/

structure FilterCondition where
  condition_type : ConditionType
  field : String
  match_type : MatchType
  value : String
  deriving DecidableEq, Repr

/-- Constructing a `FilterCondition`: `__post_init__` rejects an empty field
or an empty value. -/

def FilterCondition.make (ct : ConditionType) (field : String)
    (mt : MatchType) (value : String) : Except PyErr FilterCondition :=
  if field == "" then .error (.valueError "Field cannot be empty")
  else if value == "" then .error (.valueError "Value cannot be empty")
  else .ok ⟨ct, field, mt, value⟩

/-- `FilterCondition.header_contains` factory. -/

def FilterCondition.header_contains (field value : String) :
    Except PyErr FilterCondition :=
  FilterCondition.make .HEADER_CONTAINS field .CONTAINS value

/-- `FilterCondition.is_valid_domain`. -/

def is_valid_domain (domain : String) : Bool :=
  let domain_lower := pyStrip (pyLower domain)
  if INVALID_DOMAINS.contains domain_lower then false
  else if GENERIC_DOMAINS.contains domain_lower then false
  else if !(domain_lower.data.contains '.') then false
  else if domain_lower == "" then false
  else true

/-- `FilterCondition.address_domain_is` factory: validates the domain first. -/

def FilterCondition.address_domain_is (field domain : String) :
    Except PyErr FilterCondition :=
  if !is_valid_domain domain then
    .error (.valueError "Invalid or placeholder domain")
  else FilterCondition.make .ADDRESS_DOMAIN field .IS domain

/-- `FilterCondition.from_pattern`: parse one pattern string into a single
condition. -/

def FilterCondition.from_pattern (pattern0 : String) :
    Except PyErr FilterCondition :=
  let pattern := pyStrip pattern0
  if pyStartsWith pattern "from:" then
    let value := pyStrip (pyDrop pattern 5)
    if pyStartsWith value "@" then
      FilterCondition.address_domain_is "from" (pyDrop value 1)
    else
      FilterCondition.header_contains "from" value
  else if pyStartsWith pattern "subject:" then
    FilterCondition.header_contains "subject" (pyStrip (pyDrop pattern 8))
  else
    FilterCondition.header_contains "subject" pattern

/-- `FilterCondition.from_pattern_multi`: parse one pattern string into one
or more conditions, expanding comma-separated subject keywords. -/

def FilterCondition.from_pattern_multi (pattern0 : String) :
    Except PyErr (List FilterCondition) :=
  let pattern := pyStrip pattern0
  if pyStartsWith pattern "from:" then do
    let c ← FilterCondition.from_pattern pattern
    pure [c]
  else if pyStartsWith pattern "subject:" then
    let value := pyStrip (pyDrop pattern 8)
    if pyIn "," value then
      let keywords :=
        ((pySplitChar ',' value.data).map (fun w => pyStrip (String.mk w))).filter
          (fun kw => kw != "")
      keywords.mapM (fun kw => FilterCondition.header_contains "subject" kw)
    else do
      let c ← FilterCondition.header_contains "subject" value
      pure [c]
  else do
    let c ← FilterCondition.header_contains "subject" pattern
    pure [c]

/-! ## `filter_action.py` -/

/-- `ActionType` enum. -/

inductive ActionType where
  | FILEINTO | REDIRECT | DISCARD | KEEP | STOP | SETFLAG | ADDFLAG
  deriving DecidableEq, Repr

/-- `FilterAction` frozen dataclass. -/

structure FilterAction where
  action_type : ActionType
  parameter : Option String
  deriving DecidableEq, Repr

/-- Constructing a `FilterAction`: `__post_init__` rejects FILEINTO/REDIRECT
with a falsy (missing or empty) parameter. -/

def FilterAction.make (at_ : ActionType) (parameter : Option String) :
    Except PyErr FilterAction :=
  if (at_ == .FILEINTO || at_ == .REDIRECT) &&
      (parameter == none || parameter == some "") then
    .error (.valueError "requires a parameter")
  else .ok ⟨at_, parameter⟩

/-- `FilterAction.fileinto` factory (can raise when the folder is empty). -/

def FilterAction.fileinto (folder : String) : Except PyErr FilterAction :=
  FilterAction.make .FILEINTO (some folder)

/-- `FilterAction.stop` factory (its validation never fires). -/

def FilterAction.stop : FilterAction := ⟨.STOP, none⟩

/-! ## `filter_rule.py` -/

/-- `FilterRule` frozen dataclass, in source field order.  Its attribute set
is exactly these five fields (`slots=True`): in particular it has neither an
`enabled` nor a `match_all` attribute. -/

structure FilterRule where
  conditions : List FilterCondition
  actions : List FilterAction
  logical_operator : String
  name : String
  description : String
  deriving DecidableEq, Repr

/-- `FilterRule.create` factory together with `__post_init__` validation. -/

def FilterRule.create (conditions : List FilterCondition)
    (actions : List FilterAction) (logical_operator : String)
    (name description : String) : Except PyErr FilterRule :=
  if conditions.isEmpty then
    .error (.valueError "Filter rule must have at least one condition")
  else if actions.isEmpty then
    .error (.valueError "Filter rule must have at least one action")
  else if logical_operator != "anyof" && logical_operator != "allof" then
    .error (.valueError "Invalid logical operator")
  else .ok ⟨conditions, actions, logical_operator, name, description⟩

/-! ## `sieve_filter.py` -/

/-- `SieveFilter` aggregate.  The generated `id` (a fresh uuid) and the
`created_at`/`updated_at` timestamps are nondeterministic environment values
never inspected by the domain services and are omitted from the embedding. -/

structure SieveFilter where
  name : String
  description : String
  rules : List FilterRule
  enabled : Bool
  priority : Int
  deriving DecidableEq, Repr

/-- `SieveFilter.create` factory (rejects an empty name). -/

def SieveFilter.create (name description : String) (rules : List FilterRule) :
    Except PyErr SieveFilter :=
  if name == "" then .error (.valueError "Filter name cannot be empty")
  else .ok ⟨name, description, rules, true, 0⟩

/-! ## `filter_generator.py` -/

/-- `CategoryPattern` dataclass.  Python's `subcategories` field is
`list | None` defaulting to `None`; `None` and `[]` behave identically at
every use site (all are `if category.subcategories:` truthiness tests), so
both are modelled by `[]`. -/

inductive CategoryPattern where
  | mk (name description : String) (patterns : List String)
       (suggested_folder : String) (confidence : ℚ)
       (example_subjects : List String) (subcategories : List CategoryPattern)

/-- Field accessor. -/

def CategoryPattern.name : CategoryPattern → String
  | .mk n _ _ _ _ _ _ => n

/-- Field accessor. -/

def CategoryPattern.description : CategoryPattern → String
  | .mk _ d _ _ _ _ _ => d

/-- Field accessor. -/

def CategoryPattern.patterns : CategoryPattern → List String
  | .mk _ _ p _ _ _ _ => p

/-- Field accessor. -/

def CategoryPattern.suggested_folder : CategoryPattern → String
  | .mk _ _ _ f _ _ _ => f

/-- Field accessor. -/

def CategoryPattern.confidence : CategoryPattern → ℚ
  | .mk _ _ _ _ c _ _ => c

/-- Field accessor. -/

def CategoryPattern.example_subjects : CategoryPattern → List String
  | .mk _ _ _ _ _ e _ => e

/-- Field accessor. -/

def CategoryPattern.subcategories : CategoryPattern → List CategoryPattern
  | .mk _ _ _ _ _ _ s => s

/-- Keyword table from `_get_category_priority`. -/

def security_keywords : List String :=
  ["security", "alert", "warning", "critical", "urgent", "notification"]

/-- Keyword table from `_get_category_priority`. -/

def finance_keywords : List String :=
  ["finance", "bank", "payment", "invoice", "receipt", "bill", "paypal", "stripe"]

/-- Keyword table from `_get_category_priority`. -/

def work_keywords : List String :=
  ["work", "github", "gitlab", "ci/cd", "ci-cd", "code", "deploy", "meeting", "slack"]

/-- Keyword table from `_get_category_priority`. -/

def shopping_keywords : List String :=
  ["shop", "order", "shipping", "delivery", "amazon", "ebay", "purchase"]

/-- Keyword table from `_get_category_priority`. -/

def social_keywords : List String :=
  ["social", "facebook", "twitter", "linkedin", "instagram", "message"]

/-- Keyword table from `_get_category_priority`. -/

def promo_keywords : List String :=
  ["newsletter", "promotion", "marketing", "ad", "offer", "subscribe"]

/-- `FilterGenerator._get_category_priority`: keyword-bucket priority over
the lower-cased concatenation of name and description. -/

def get_category_priority (category : CategoryPattern) : Nat :=
  let combined := pyLower category.name ++ " " ++ pyLower category.description
  if security_keywords.any (fun kw => pyIn kw combined) then 0
  else if finance_keywords.any (fun kw => pyIn kw combined) then 10
  else if work_keywords.any (fun kw => pyIn kw combined) then 20
  else if shopping_keywords.any (fun kw => pyIn kw combined) then 30
  else if social_keywords.any (fun kw => pyIn kw combined) then 40
  else if promo_keywords.any (fun kw => pyIn kw combined) then 50
  else 60

/-- One insertion step of a stable ascending sort by key: the new element
goes in front of the first existing element with a key `≥` its own. -/

def insertStable {α : Type} (key : α → Nat) (x : α) : List α → List α
  | [] => [x]
  | y :: ys => if key x ≤ key y then x :: y :: ys else y :: insertStable key x ys

/-- Python `sorted(l, key=key)`: stable, ascending.  Modelled by insertion
sort (the head is inserted in front of equal-key elements of the sorted
tail, which preserves the original relative order of ties, exactly like
Python's stable sort). -/

def pySortedByKey {α : Type} (key : α → Nat) : List α → List α
  | [] => []
  | x :: xs => insertStable key x (pySortedByKey key xs)

/-- The `try/except ValueError: continue` around `from_pattern_multi` in
`_create_rule_from_category`: a pattern whose parse raises contributes no
conditions (every error that call raises is a ValueError). -/

def condsOfPattern (p : String) : List FilterCondition :=
  match FilterCondition.from_pattern_multi p with
  | .ok cs => cs
  | .error _ => []

/-- `FilterGenerator._create_rule_from_category`: `none` when the category
yields no conditions, `some rule` otherwise; the `FilterAction.fileinto`
validation error (empty suggested folder) propagates uncaught. -/

def create_rule_from_category (category : CategoryPattern) :
    Except PyErr (Option FilterRule) :=
  if category.patterns.isEmpty then .ok none
  else
    let conditions := (category.patterns.map condsOfPattern).flatten
    if conditions.isEmpty then .ok none
    else do
      let a1 ← FilterAction.fileinto category.suggested_folder
      let actions := [a1, FilterAction.stop]
      let logical_operator := if conditions.length > 1 then "anyof" else "anyof"
      let rule ← FilterRule.create conditions actions logical_operator
        category.name category.description
      pure (some rule)

/-- The inner subcategory loop of `generate_filter_from_categories`. -/

def collectSubRules : List CategoryPattern → Except PyErr (List FilterRule)
  | [] => .ok []
  | sc :: rest => do
    let r ← create_rule_from_category sc
    let rs ← collectSubRules rest
    match r with
    | some rule => pure (rule :: rs)
    | none => pure rs

/-- The main rule-collection loop of `generate_filter_from_categories`: for
each category in order, its own rule (if any) followed by the rules of its
confidence-filtered, priority-sorted direct subcategories. -/

def collectRules (min_confidence : ℚ) :
    List CategoryPattern → Except PyErr (List FilterRule)
  | [] => .ok []
  | c :: rest => do
    let r ← create_rule_from_category c
    let srs ← collectSubRules (pySortedByKey get_category_priority
      (c.subcategories.filter (fun sc => min_confidence ≤ sc.confidence)))
    let rs ← collectRules min_confidence rest
    pure ((match r with | some rule => [rule] | none => []) ++ srs ++ rs)

/-- `FilterGenerator.generate_filter_from_categories` (the `min_confidence`
constructor parameter is passed explicitly). -/

def generate_filter_from_categories (min_confidence : ℚ)
    (categories : List CategoryPattern) : Except PyErr SieveFilter :=
  if categories.isEmpty then
    .error (.valueError "No categories provided for filter generation")
  else
    let valid_categories :=
      categories.filter (fun c => min_confidence ≤ c.confidence)
    if valid_categories.isEmpty then
      .error (.valueError "No categories meet minimum confidence threshold")
    else do
      let sorted_categories := pySortedByKey get_category_priority valid_categories
      let rules ← collectRules min_confidence sorted_categories
      if rules.isEmpty then
        .error (.valueError "Failed to generate any valid rules from categories")
      else
        SieveFilter.create "AI-Generated Email Filters"
          "Automatically generated filters" rules

/-! ## `filter_validator.py` -/

/-- Structural worker for `dedupFirst`: drop elements already seen. -/

def dedupFirstAux (seen : List String) : List String → List String
  | [] => []
  | x :: xs =>
    if seen.contains x then dedupFirstAux seen xs
    else x :: dedupFirstAux (x :: seen) xs

/-- First-occurrence de-duplication (models iterating the distinct keys of a
Python dict built by insertion, and — order aside — a Python `set`). -/

def dedupFirst (l : List String) : List String := dedupFirstAux [] l

/-- The `.value` string of a `ConditionType` enum member. -/

def ConditionType.value : ConditionType → String
  | .HEADER_CONTAINS => "header_contains"
  | .HEADER_IS => "header_is"
  | .ADDRESS_DOMAIN => "address_domain"
  | .ADDRESS_IS => "address_is"
  | .BODY_CONTAINS => "body_contains"
  | .SIZE_OVER => "size_over"
  | .SIZE_UNDER => "size_under"

/-- `ValidationIssue` dataclass. -/

structure ValidationIssue where
  severity : String
  rule_name : String
  message : String
  suggestion : Option String
  deriving DecidableEq, Repr

/-- Python `rule.name or "Unnamed"`. -/

def ruleDisplayName (rule : FilterRule) : String :=
  if rule.name == "" then "Unnamed" else rule.name

/-- `FilterValidator._check_placeholder_domains`. -/

def check_placeholder_domains (rule : FilterRule) : List ValidationIssue :=
  (rule.conditions.filter (fun c =>
      c.condition_type.value == "address_domain" &&
      INVALID_DOMAINS.contains (pyLower c.value))).map
    (fun c =>
      ⟨"error", ruleDisplayName rule,
        "Placeholder domain detected: " ++ pyLower c.value,
        some "Replace with a real domain from your emails"⟩)

/-- `FilterValidator._check_generic_domains`. -/

def check_generic_domains (rule : FilterRule) : List ValidationIssue :=
  (rule.conditions.filter (fun c =>
      c.condition_type.value == "address_domain" &&
      GENERIC_DOMAINS.contains (pyLower c.value))).map
    (fun c =>
      ⟨"warning", ruleDisplayName rule,
        "Overly generic domain: " ++ pyLower c.value,
        some "Domain is too generic and may match unintended emails"⟩)

/-- `FilterValidator._check_comma_in_values`. -/

def check_comma_in_values (rule : FilterRule) : List ValidationIssue :=
  (rule.conditions.filter (fun c => pyIn "," c.value)).map
    (fun c =>
      ⟨"error", ruleDisplayName rule,
        "Comma found in condition value: " ++ c.value,
        some "Split into multiple conditions. Use anyof logic to match ANY of the keywords."⟩)

/-- `FilterValidator.validate_rule`. -/

def validate_rule (rule : FilterRule) : List ValidationIssue :=
  check_placeholder_domains rule ++ check_generic_domains rule ++
  check_comma_in_values rule ++
  (if rule.conditions.isEmpty then
    [⟨"error", ruleDisplayName rule, "Rule has no conditions",
      some "Add at least one condition to match emails"⟩]
   else []) ++
  (if rule.actions.isEmpty then
    [⟨"error", ruleDisplayName rule, "Rule has no actions",
      some "Add at least one action (e.g., fileinto)"⟩]
   else [])

/-- Python `hasattr(action, name)` on a `FilterAction`: the frozen dataclass
declares `slots = ("action_type", "parameter")`, so exactly those two names
are attributes.  In particular `hasattr(action, "folder")` is `False` for
every `FilterAction` (the fileinto target is stored in `parameter`). -/

def FilterAction.hasattr (_ : FilterAction) (attr : String) : Bool :=
  attr == "action_type" || attr == "parameter"

/-- The target-folder extraction loop of `_check_rule_overlap`: take the
first action with a `folder` attribute.  The read `action.folder` in the
taken branch is unreachable, because no `FilterAction` has that attribute;
the branch is kept (with a dummy value) to mirror the source shape. -/

def targetFolderOfRule (rule : FilterRule) : Option String :=
  match rule.actions.find? (fun a => a.hasattr "folder") with
  | some _ => some ""
  | none => none

/-- Insertion-ordered association-list lookup (Python dict read). -/

def alistGet {β : Type} (l : List (String × β)) (k : String) : Option β :=
  (l.find? (fun p => p.1 == k)).map (fun p => p.2)

/-- Insertion-ordered association-list write (Python dict assignment):
update in place when the key exists, else append. -/

def alistSet {β : Type} : List (String × β) → String → β → List (String × β)
  | [], k, v => [(k, v)]
  | (k0, v0) :: rest, k, v =>
    if k0 == k then (k0, v) :: rest else (k0, v0) :: alistSet rest k v

/-- The lower-cased address-domain values of a rule (the `domains` set in
`_check_rule_overlap`; Python set order is unspecified, first-occurrence
order is used here). -/

def ruleDomains (rule : FilterRule) : List String :=
  dedupFirst
    ((rule.conditions.filter
        (fun c => c.condition_type.value == "address_domain")).map
      (fun c => pyLower c.value))

/-- `FilterValidator._check_rule_overlap`: group rules by the target folder
extracted via `hasattr(action, "folder")`, build the domain-to-folders map,
and warn on every domain mapped to more than one folder. -/

def check_rule_overlap (rules : List FilterRule) : List ValidationIssue :=
  let folder_conditions : List (String × List (FilterRule × List String)) :=
    rules.foldl
      (fun acc rule =>
        match targetFolderOfRule rule with
        | none => acc
        | some folder =>
          if folder == "" then acc
          else
            alistSet acc folder
              ((alistGet acc folder).getD [] ++ [(rule, ruleDomains rule)]))
      []
  let domain_to_folders : List (String × List String) :=
    folder_conditions.foldl
      (fun acc p =>
        p.2.foldl
          (fun acc2 rd =>
            rd.2.foldl
              (fun acc3 domain =>
                let folders := (alistGet acc3 domain).getD []
                if folders.contains p.1 then acc3
                else alistSet acc3 domain (folders ++ [p.1]))
              acc2)
          acc)
      []
  domain_to_folders.foldr
    (fun p acc =>
      if 1 < p.2.length then
        ⟨"warning", "Multiple Rules",
          "Domain " ++ p.1 ++ " used in multiple folders: " ++
            String.intercalate ", " p.2,
          some "This may cause emails to be sorted into the first matching folder only"⟩
        :: acc
      else acc)
    []

/-- `FilterValidator.validate_filter`. -/

def validate_filter (sieve_filter : SieveFilter) : List ValidationIssue :=
  if sieve_filter.rules.isEmpty then
    [⟨"error", "Filter", "Filter has no rules", some "Add at least one filter rule"⟩]
  else
    (sieve_filter.rules.map validate_rule).flatten ++
    check_rule_overlap sieve_filter.rules

/-! ## `email_address.py` / `email.py` -/

/-- `EmailAddress` value object (its RFC-5322-style construction regex is
outside what the claims exercise; all concrete addresses in this file pass
it). -/

structure EmailAddress where
  value : String
  deriving DecidableEq, Repr

/-- `EmailAddress.domain`: `self.value.split("@")[1] if "@" in self.value
else ""`. -/

def EmailAddress.domain (a : EmailAddress) : String :=
  if a.value.data.contains '@' then
    ((pySplit '@' a.value).get? 1).getD ""
  else ""

/-- `Email` aggregate, restricted to the fields the domain services read
(`sender`, `subject`, `body`, `folder`); the generated id, recipients,
headers, timestamps and attachment flag are never inspected here. -/

structure Email where
  sender : EmailAddress
  subject : String
  body : String
  folder : String
  deriving DecidableEq, Repr

/-! ## `filter_matcher.py` -/

/-- `MatchResult` dataclass. -/

structure MatchResult where
  email : Email
  rule : FilterRule
  matched : Bool
  actions : List FilterAction
  deriving DecidableEq, Repr

/-- `FilterTestResult` dataclass (`matches_by_rule` dict in insertion
order). -/

structure FilterTestResult where
  filter : SieveFilter
  total_emails : Nat
  matched_emails : Nat
  match_rate : ℚ
  matches_by_rule : List (String × Nat)
  match_results : List MatchResult
  deriving DecidableEq, Repr

/-- Python `rule.enabled` on the slots dataclass `FilterRule`: the class
declares no `enabled` attribute, so every such access raises
`AttributeError`. -/

def FilterRule.getattr_enabled (_ : FilterRule) : Except PyErr Bool :=
  .error (.attributeError "FilterRule" "enabled")

/-- Python `rule.match_all` on the slots dataclass `FilterRule`: the class
declares no `match_all` attribute (its combining mode lives in
`logical_operator`), so every such access raises `AttributeError`. -/

def FilterRule.getattr_match_all (_ : FilterRule) : Except PyErr Bool :=
  .error (.attributeError "FilterRule" "match_all")

/-- Python `action.action_type == "stop"`: `ActionType` is a plain `Enum`,
whose `__eq__` is identity; an enum member is never equal to a `str`, so
this comparison is `False` for every member — including `ActionType.STOP`. -/

def pyEqActionTypeStr (_ : ActionType) (_ : String) : Bool := false

/-- `FilterMatcher._get_email_field_value`. -/

def get_email_field_value (email : Email) (field : String) : Option String :=
  let field_lower := pyLower field
  if field_lower == "from" then some email.sender.value
  else if field_lower == "subject" then some email.subject
  else if field_lower == "to" then some ""
  else if field_lower == "body" then some email.body
  else none

/-- The wildcard matching of the MATCHES branch of `_test_condition`: the
translated pattern (`*` → any run, `?` → one character) is matched,
case-insensitively, against a prefix of the field value (`re.match` anchors
only at the start).  Characters other than `*`/`?` are compared literally
(the source would additionally interpret stray regex metacharacters in the
value; no embedded pattern contains any). -/

def globChars : List Char → List Char → Bool
  | [], _ => true
  | p :: ps, s =>
    if p == '*' then
      globChars ps s ||
        (match s with
         | [] => false
         | _ :: ss => globChars (p :: ps) ss)
    else
      match s with
      | [] => false
      | c :: ss => (p == '?' || p == c) && globChars ps ss
  termination_by p s => (p.length, s.length)

/-- `FilterMatcher._test_condition`. -/

def test_condition (condition : FilterCondition) (email : Email) : Bool :=
  match get_email_field_value email condition.field with
  | none => false
  | some field_value =>
    if condition.match_type == .IS then
      pyLower field_value == pyLower condition.value
    else if condition.match_type == .CONTAINS then
      pyIn (pyLower condition.value) (pyLower field_value)
    else if condition.match_type == .MATCHES then
      globChars (pyLower condition.value).data (pyLower field_value).data
    else false

/-- `FilterMatcher._test_rule_against_email`: no conditions means no match;
otherwise the combining mode is read from the (nonexistent) `match_all`
attribute, which raises. -/

def test_rule_against_email (rule : FilterRule) (email : Email) :
    Except PyErr Bool :=
  if rule.conditions.isEmpty then .ok false
  else do
    let match_all ← FilterRule.getattr_match_all rule
    if match_all then
      .ok (rule.conditions.all (fun c => test_condition c email))
    else
      .ok (rule.conditions.any (fun c => test_condition c email))

/-- Mutable state threaded through the `test_filter` loops. -/

structure MatchState where
  matches_by_rule : List (String × Nat)
  match_results : List MatchResult

/-- Python `matches_by_rule[rule.name] += 1` (KeyError when absent). -/

def dictIncr (d : List (String × Nat)) (k : String) :
    Except PyErr (List (String × Nat)) :=
  match alistGet d k with
  | none => .error (.keyError k)
  | some v => .ok (alistSet d k (v + 1))

/-- The inner `for rule in sieve_filter.rules` loop of `test_filter`:
skips disabled rules (the `rule.enabled` read raises), records matches, and
breaks after a matching rule when any of its actions compares equal to the
string `"stop"`. -/

def rulesLoop (email : Email) :
    List FilterRule → MatchState → Except PyErr MatchState
  | [], st => .ok st
  | rule :: rest, st => do
    let enabled ← FilterRule.getattr_enabled rule
    if !enabled then rulesLoop email rest st
    else do
      let matched ← test_rule_against_email rule email
      if matched then do
        let d ← dictIncr st.matches_by_rule rule.name
        let st1 : MatchState :=
          ⟨d, st.match_results ++ [⟨email, rule, true, rule.actions⟩]⟩
        if rule.actions.any (fun a => pyEqActionTypeStr a.action_type "stop") then
          .ok st1
        else rulesLoop email rest st1
      else rulesLoop email rest st

/-- The outer `for email in emails` loop of `test_filter`. -/

def emailsLoop (rules : List FilterRule) :
    List Email → MatchState → Except PyErr MatchState
  | [], st => .ok st
  | e :: es, st => do
    let st1 ← rulesLoop e rules st
    emailsLoop rules es st1

/-- The dict comprehension initialising `matches_by_rule` to zero. -/

def dictInitZero (rules : List FilterRule) : List (String × Nat) :=
  rules.foldl (fun d r => alistSet d r.name 0) []

/-- `FilterMatcher.test_filter`. -/

def test_filter (sieve_filter : SieveFilter) (emails : List Email) :
    Except PyErr FilterTestResult :=
  if emails.isEmpty then
    .ok ⟨sieve_filter, 0, 0, 0, [], []⟩
  else do
    let st ← emailsLoop sieve_filter.rules emails
      ⟨dictInitZero sieve_filter.rules, []⟩
    let matched_emails := st.match_results.length
    let match_rate : ℚ :=
      if emails.isEmpty then 0
      else ratDiv (matched_emails : ℚ) (emails.length : ℚ)
    .ok ⟨sieve_filter, emails.length, matched_emails, match_rate,
         st.matches_by_rule, st.match_results⟩

/-! ## `pattern_detector.py` -/

/-- Python `min(a, b)` on numbers (the smaller argument, the first on
ties). -/

def pyMin (a b : ℚ) : ℚ := if a ≤ b then a else b

/-- `DetectedPattern` dataclass. -/

structure DetectedPattern where
  pattern_type : String
  value : String
  frequency : Nat
  email_count : Nat
  example_subjects : List String
  confidence : ℚ
  deriving DecidableEq, Repr

/-- Structural worker for `pySplitWsL`: `acc` holds the current word,
reversed. -/

def pySplitWsAux : List Char → List Char → List (List Char)
  | [], acc => if acc.isEmpty then [] else [acc.reverse]
  | c :: cs, acc =>
    if isPySpace c then
      if acc.isEmpty then pySplitWsAux cs []
      else acc.reverse :: pySplitWsAux cs []
    else pySplitWsAux cs (c :: acc)

/-- Python `subject.split()` (no argument): split on runs of whitespace,
dropping empty pieces. -/

def pySplitWsL (l : List Char) : List (List Char) := pySplitWsAux l []

/-- The stop-word set of `_detect_subject_keyword_patterns`. -/

def stop_words : List String :=
  ["re", "fwd", "the", "a", "an", "and", "or", "but", "in", "on", "at", "to",
   "for", "of", "with", "by", "from", "up", "out", "if", "about", "as",
   "into", "through", "during", "before", "after"]

/-- The word-extraction comprehension of `_detect_subject_keyword_patterns`:
whitespace tokens of the subject of length at least 3 whose lower-casing is
not a stop word, lower-cased, in order. -/

def wordsOf (e : Email) : List String :=
  ((pySplitWsL e.subject.data).map String.mk).filterMap
    (fun w =>
      if 3 ≤ w.data.length && !stop_words.contains (pyLower w) then
        some (pyLower w)
      else none)

/-- Sender domain of an email (via `email.sender.domain`). -/

def emailDomain (e : Email) : String := e.sender.domain

/-- Occurrences of a sender domain in the collection (final value of the
`domain_data[domain]["count"]` accumulator). -/

def domCount (emails : List Email) (d : String) : Nat :=
  (emails.filter (fun e => emailDomain e == d)).length

/-- Subjects of the emails with the given sender domain, in order (the
`domain_data[domain]["subjects"]` accumulator collects exactly the first
`max_examples` of these; the final `take` applies that cap). -/

def domSubjects (emails : List Email) (d : String) : List String :=
  (emails.filter (fun e => emailDomain e == d)).map Email.subject

/-- Distinct sender domains in first-insertion order (iteration order of the
`domain_data` dict). -/

def domainKeys (emails : List Email) : List String :=
  dedupFirst (emails.map emailDomain)

/-- `PatternDetector._detect_sender_domain_patterns` (constructor
parameters `min_frequency`, `max_examples` passed explicitly). -/

def detect_sender_domain_patterns (min_frequency max_examples : Nat)
    (emails : List Email) : List DetectedPattern :=
  let total : ℚ := (emails.length : ℚ)
  (domainKeys emails).filterMap
    (fun d =>
      let count := domCount emails d
      if min_frequency ≤ count then
        some ⟨"sender_domain", d, count, count,
              (domSubjects emails d).take max_examples,
              pyMin 1 (ratDiv (count : ℚ) (ratMul total (mkRat 1 10)))⟩
      else none)

/-- Number of emails whose subject contains the keyword (the
`keyword_data[word]["count"]` accumulator counts each word once per email,
via the per-email `set`). -/

def kwCount (emails : List Email) (w : String) : Nat :=
  (emails.filter (fun e => (wordsOf e).contains w)).length

/-- Subjects of the emails containing the keyword, in order. -/

def kwSubjects (emails : List Email) (w : String) : List String :=
  (emails.filter (fun e => (wordsOf e).contains w)).map Email.subject

/-- Distinct keywords over the collection (the key set of `keyword_data`;
Python set iteration order inside one email is unspecified, first-occurrence
order is used here — the claims proved below do not depend on it). -/

def kwKeys (emails : List Email) : List String :=
  dedupFirst ((emails.map (fun e => dedupFirst (wordsOf e))).flatten)

/-- `PatternDetector._detect_subject_keyword_patterns`. -/

def detect_subject_keyword_patterns (min_frequency max_examples : Nat)
    (emails : List Email) : List DetectedPattern :=
  let total : ℚ := (emails.length : ℚ)
  (kwKeys emails).filterMap
    (fun w =>
      let count := kwCount emails w
      if min_frequency ≤ count then
        some ⟨"subject_keyword", w, count, count,
              (kwSubjects emails w).take max_examples,
              pyMin 1 (ratDiv (count : ℚ) (ratMul total (mkRat 15 100)))⟩
      else none)

/-- Occurrences of an exact sender address in the collection. -/

def sendCount (emails : List Email) (s : String) : Nat :=
  (emails.filter (fun e => e.sender.value == s)).length

/-- Subjects of the emails with the given exact sender, in order. -/

def sendSubjects (emails : List Email) (s : String) : List String :=
  (emails.filter (fun e => e.sender.value == s)).map Email.subject

/-- Distinct sender addresses in first-insertion order. -/

def senderKeys (emails : List Email) : List String :=
  dedupFirst (emails.map (fun e => e.sender.value))

/-- `PatternDetector._detect_sender_address_patterns` (stricter floor
`min_frequency + 2`). -/

def detect_sender_address_patterns (min_frequency max_examples : Nat)
    (emails : List Email) : List DetectedPattern :=
  let total : ℚ := (emails.length : ℚ)
  (senderKeys emails).filterMap
    (fun s =>
      let count := sendCount emails s
      if min_frequency + 2 ≤ count then
        some ⟨"sender_address", s, count, count,
              (sendSubjects emails s).take max_examples,
              pyMin 1 (ratDiv (count : ℚ) (ratMul total (mkRat 8 100)))⟩
      else none)

/-- One insertion step of a stable descending sort by a rational key. -/

def insertStableDesc {α : Type} (key : α → ℚ) (x : α) : List α → List α
  | [] => [x]
  | y :: ys => if key y ≤ key x then x :: y :: ys else y :: insertStableDesc key x ys

/-- Python `l.sort(key=key, reverse=True)`: stable, descending. -/

def pySortedDescByQ {α : Type} (key : α → ℚ) : List α → List α
  | [] => []
  | x :: xs => insertStableDesc key x (pySortedDescByQ key xs)

/-- `PatternDetector.detect_patterns`: the three passes concatenated,
filtered to `confidence ≥ min_confidence`, sorted by confidence
descending. -/

def detect_patterns (min_frequency : Nat) (min_confidence : ℚ)
    (max_examples : Nat) (emails : List Email) : List DetectedPattern :=
  if emails.isEmpty then []
  else
    let patterns :=
      detect_sender_domain_patterns min_frequency max_examples emails ++
      detect_subject_keyword_patterns min_frequency max_examples emails ++
      detect_sender_address_patterns min_frequency max_examples emails
    let valid_patterns :=
      patterns.filter (fun p => min_confidence ≤ p.confidence)
    pySortedDescByQ DetectedPattern.confidence valid_patterns

/-! ## Dynamic values for `generate_filter_from_raw_response`

The raw AI response is an untyped JSON-like Python value; `_parse_category`
receives arbitrary elements of the `categories` array and stores whatever
`.get` returns into the (runtime-unchecked) `CategoryPattern` dataclass
fields.  `PyVal` models these dynamic values and the Python operations the
parsing code applies to them, with Python's dynamic-type errors. -/

/-- Untyped Python value (the JSON-ish fragment reaching `_parse_category`). -/

inductive PyVal where
  | str (s : String)
  | num (q : ℚ)
  | boolean (b : Bool)
  | pynone
  | list (items : List PyVal)
  | dict (items : List (String × PyVal))

/-- Python `key in v` for a string key: key membership on a dict, substring
on a str, element equality on a list; `TypeError` on non-containers. -/

def pyInOp (key : String) : PyVal → Except PyErr Bool
  | .dict items => .ok (items.any (fun p => p.1 == key))
  | .str s => .ok (pyIn key s)
  | .list items =>
    .ok (items.any (fun v => match v with | .str s => s == key | _ => false))
  | _ => .error (.typeError "argument is not iterable")

/-- Python `v.get(k, default)`: only dicts have a `get` attribute; a str (or
list, or any other value) raises `AttributeError`. -/

def pyDictGet (v : PyVal) (k : String) (default : PyVal) : Except PyErr PyVal :=
  match v with
  | .dict items => .ok (((items.find? (fun p => p.1 == k)).map (fun p => p.2)).getD default)
  | .str _ => .error (.attributeError "str" "get")
  | .list _ => .error (.attributeError "list" "get")
  | .num _ => .error (.attributeError "int" "get")
  | .boolean _ => .error (.attributeError "bool" "get")
  | .pynone => .error (.attributeError "NoneType" "get")

/-- Python `v[k]` for a string key. -/

def pySubscript (v : PyVal) (k : String) : Except PyErr PyVal :=
  match v with
  | .dict items =>
    match (items.find? (fun p => p.1 == k)).map (fun p => p.2) with
    | some x => .ok x
    | none => .error (.keyError k)
  | .str _ => .error (.typeError "string indices must be integers")
  | .list _ => .error (.typeError "list indices must be integers")
  | _ => .error (.typeError "object is not subscriptable")

/-- Python truthiness of a value. -/

def pyTruthy : PyVal → Bool
  | .str s => s != ""
  | .num q => q != 0
  | .boolean b => b
  | .pynone => false
  | .list l => !l.isEmpty
  | .dict d => !d.isEmpty

/-- Python iteration over a value: a list yields its items, a str its
characters, a dict its keys; `TypeError` otherwise. -/

def pyIterate : PyVal → Except PyErr (List PyVal)
  | .list items => .ok items
  | .str s => .ok (s.data.map (fun c => .str (String.mk [c])))
  | .dict items => .ok (items.map (fun p => .str p.1))
  | _ => .error (.typeError "object is not iterable")

/-- `CategoryPattern` as produced by `_parse_category`: a plain dataclass
whose fields hold whatever `.get` returned, with no runtime type check. -/

structure CategoryPatternDyn where
  name : PyVal
  description : PyVal
  patterns : PyVal
  suggested_folder : PyVal
  confidence : PyVal
  example_subjects : PyVal
  subcategories : List CategoryPatternDyn

/-- `FilterGenerator._parse_category`, with an explicit recursion budget
standing in for CPython's recursion limit (1000 by default; no input used
below comes near it). -/

def parse_category_fuel : Nat → PyVal → Except PyErr (Option CategoryPatternDyn)
  | 0, _ => .error (.typeError "maximum recursion depth exceeded")
  | Nat.succ fuel, cat_dict => do
    let hasSub ← pyInOp "subcategories" cat_dict
    let subcategories ←
      if hasSub then do
        let subv ← pySubscript cat_dict "subcategories"
        if pyTruthy subv then do
          let items ← pyIterate subv
          items.foldlM
            (fun acc it => do
              let sc ← parse_category_fuel fuel it
              match sc with
              | some c => pure (acc ++ [c])
              | none => pure acc)
            ([] : List CategoryPatternDyn)
        else pure []
      else pure ([] : List CategoryPatternDyn)
    let name ← pyDictGet cat_dict "name" (.str "Unknown")
    let description ← pyDictGet cat_dict "description" (.str "")
    let patterns ← pyDictGet cat_dict "patterns" (.list [])
    let nameDefault ← pyDictGet cat_dict "name" (.str "Unknown")
    let suggested_folder ← pyDictGet cat_dict "suggested_folder" nameDefault
    let confidence ← pyDictGet cat_dict "confidence" (.num (mkRat 1 2))
    let example_subjects ← pyDictGet cat_dict "example_subjects" (.list [])
    pure (some ⟨name, description, patterns, suggested_folder, confidence,
                example_subjects, subcategories⟩)

/-- `_parse_category` at the CPython default recursion budget. -/

def parse_category (v : PyVal) : Except PyErr (Option CategoryPatternDyn) :=
  parse_category_fuel 1000 v

/-- Is the exception one of the classes named by
`except (KeyError, TypeError)`? -/

def isKeyOrTypeError : PyErr → Bool
  | .keyError _ => true
  | .typeError _ => true
  | _ => false

/-- The `for cat_dict in ai_response["categories"]` loop of
`generate_filter_from_raw_response`: each entry is parsed inside
`try ... except (KeyError, TypeError): continue`; any other exception (such
as `AttributeError`) propagates and aborts the whole call. -/

def parse_raw_categories : List PyVal → Except PyErr (List CategoryPatternDyn)
  | [] => .ok []
  | c :: rest =>
    match parse_category c with
    | .ok (some cat) => (parse_raw_categories rest).map (fun l => cat :: l)
    | .ok none => parse_raw_categories rest
    | .error e =>
      if isKeyOrTypeError e then parse_raw_categories rest else .error e

/-- The parsing phase of `generate_filter_from_raw_response`: everything the
function does before handing the accumulated category list to
`generate_filter_from_categories`. -/

def raw_categories_of_response (ai_response : PyVal) :
    Except PyErr (List CategoryPatternDyn) := do
  let has ← pyInOp "categories" ai_response
  if !has then .error (.valueError "AI response missing categories field")
  else do
    let cats ← pySubscript ai_response "categories"
    let items ← pyIterate cats
    parse_raw_categories items

/-! ## Concrete fixtures -/

/-- A header-contains condition on subject "alert". -/

def condAlert : FilterCondition := ⟨.HEADER_CONTAINS, "subject", .CONTAINS, "alert"⟩

/-- A header-contains condition on subject "order". -/

def condOrder : FilterCondition := ⟨.HEADER_CONTAINS, "subject", .CONTAINS, "order"⟩

/-- Generator-style rule: file into Security, then stop. -/

def ruleSec : FilterRule :=
  ⟨[condAlert], [⟨.FILEINTO, some "Security"⟩, FilterAction.stop], "anyof", "Security", ""⟩

/-- Generator-style rule: file into Orders, then stop. -/

def ruleOrd : FilterRule :=
  ⟨[condOrder], [⟨.FILEINTO, some "Orders"⟩, FilterAction.stop], "anyof", "Orders", ""⟩

/-- A one-rule filter. -/

def filtC1 : SieveFilter := ⟨"AI-Generated Email Filters", "", [ruleSec], true, 0⟩

/-- An email whose subject contains "alert". -/

def emailAlert : Email := ⟨⟨"news@amazon.com"⟩, "Security alert", "", "INBOX"⟩

/-- Second rule that would also match the alert email (subject contains
"security", case-insensitively). -/

def ruleSec2 : FilterRule :=
  ⟨[⟨.HEADER_CONTAINS, "subject", .CONTAINS, "security"⟩],
   [⟨.FILEINTO, some "Alerts"⟩, FilterAction.stop], "anyof", "Alerts", ""⟩

/-- Two-rule filter, both rules carrying a stop action. -/

def filtC2 : SieveFilter := ⟨"AI-Generated Email Filters", "", [ruleSec, ruleSec2], true, 0⟩

/-- Address-domain condition naming amazon.com. -/

def condAmazon : FilterCondition := ⟨.ADDRESS_DOMAIN, "from", .IS, "amazon.com"⟩

/-- Rule routing amazon.com to folder A. -/

def ruleAmazonA : FilterRule :=
  ⟨[condAmazon], [⟨.FILEINTO, some "FolderA"⟩, FilterAction.stop], "anyof", "RuleA", ""⟩

/-- Rule routing amazon.com to folder B. -/

def ruleAmazonB : FilterRule :=
  ⟨[condAmazon], [⟨.FILEINTO, some "FolderB"⟩, FilterAction.stop], "anyof", "RuleB", ""⟩

/-- Filter with the same domain routed to two different folders. -/

def filtC3 : SieveFilter := ⟨"F", "", [ruleAmazonA, ruleAmazonB], true, 0⟩

/-- A well-formed raw category dictionary. -/

def rawCatSecurity : PyVal :=
  .dict [("name", .str "Security"), ("description", .str ""),
         ("patterns", .list [.str "subject:alert"]),
         ("suggested_folder", .str "Security"),
         ("confidence", .num (mkRat 9 10))]

/-- Another well-formed raw category dictionary. -/

def rawCatShopping : PyVal :=
  .dict [("name", .str "Shopping"), ("description", .str ""),
         ("patterns", .list [.str "subject:order"]),
         ("suggested_folder", .str "Shopping"),
         ("confidence", .num (mkRat 9 10))]

/-- Raw response whose second category entry is a string (wrong type). -/

def rawResponseWithStr : PyVal :=
  .dict [("categories", .list [rawCatSecurity, .str "oops", rawCatShopping])]

/-- Raw response whose second category entry is a number (wrong type). -/

def rawResponseWithNum : PyVal :=
  .dict [("categories", .list [rawCatSecurity, .num 42, rawCatShopping])]

/-- One of the three same-domain emails of the C9 counterexample. -/

def c9DupEmail (i : Nat) : Email :=
  ⟨⟨"u" ++ toString i ++ "@dup.com"⟩, "", "", "INBOX"⟩

/-- One of the 58 unique-domain emails of the C9 counterexample. -/

def c9OtherEmail (i : Nat) : Email :=
  ⟨⟨"v" ++ toString i ++ "@d" ++ toString i ++ ".com"⟩, "", "", "INBOX"⟩

/-- 61 emails: dup.com occurs three times, 58 other domains once each, all
subjects empty, all senders distinct. -/

def c9emails : List Email :=
  ((List.range 3).map c9DupEmail) ++ ((List.range 58).map c9OtherEmail)

/-- The conditions a category's pattern strings parse into (unparseable
patterns contributing nothing) — the `conditions` list of
`_create_rule_from_category`. -/

def categoryConditions (c : CategoryPattern) : List FilterCondition :=
  (c.patterns.map condsOfPattern).flatten

/-- The subcategories of a category surviving the confidence filter. -/

def confSubcategories (mc : ℚ) (c : CategoryPattern) : List CategoryPattern :=
  c.subcategories.filter (fun sc => mc ≤ sc.confidence)

/-- The categories actually processed by the main generator loop over `l`:
each element of `l` followed by its confidence-surviving direct
subcategories. -/

def processedWithSubs (mc : ℚ) (l : List CategoryPattern) : List CategoryPattern :=
  (l.map (fun c => c :: confSubcategories mc c)).flatten

/-- The categories surviving the confidence filter. -/

def confSurvivors (mc : ℚ) (cats : List CategoryPattern) : List CategoryPattern :=
  cats.filter (fun c => mc ≤ c.confidence)

/-- Three emails all from x.com, with empty subjects and distinct senders. -/

def w9emails : List Email :=
  [⟨⟨"a@x.com"⟩, "", "", "INBOX"⟩, ⟨⟨"b@x.com"⟩, "", "", "INBOX"⟩,
   ⟨⟨"c@x.com"⟩, "", "", "INBOX"⟩]

/-- Rule without a stop action that matches the alert email. -/

def ruleNoStopA : FilterRule :=
  ⟨[condAlert], [⟨.FILEINTO, some "FolderA"⟩], "anyof", "A", ""⟩

/-- Second no-stop rule that would also match the alert email. -/

def ruleNoStopB : FilterRule :=
  ⟨[⟨.HEADER_CONTAINS, "subject", .CONTAINS, "security"⟩],
   [⟨.FILEINTO, some "FolderB"⟩], "anyof", "B", ""⟩

/-- Filter with two matching rules, neither carrying stop. -/

def filtC10 : SieveFilter := ⟨"F", "", [ruleNoStopA, ruleNoStopB], true, 0⟩

/-- A rule-free filter. -/

def filtNoRules : SieveFilter := ⟨"F", "", [], true, 0⟩

/-- The result `test_filter` produces for `filtNoRules` on no emails. -/

def resEmptyRun : FilterTestResult := ⟨filtNoRules, 0, 0, 0, [], []⟩

/-! ## Claim theorems -/

/-- C1: the claim says `FilterMatcher.test_filter` evaluates every enabled
rule's conditions under the rule's combining mode and raises no error.  In
the code, the very first per-rule step reads `rule.enabled`, an attribute
`FilterRule` does not declare, so for any filter with at least one rule and
any non-empty email collection the call raises `AttributeError` instead of
returning a `FilterTestResult` (the combining-mode read `rule.match_all`
would equally raise). -/

theorem C1_test_filter_raises_attribute_error :
    test_filter filtC1 [emailAlert] =
      .error (.attributeError "FilterRule" "enabled") := by decide

/-- C2: the claim says a matching rule with a stop action halts evaluation
of later rules for that email.  On the two-rule filter `filtC2`, whose first
rule matches `emailAlert` and carries a stop action, `test_filter` raises
`AttributeError` before evaluating any rule; moreover the stop test itself,
`any(action.action_type == "stop" ...)`, compares an `ActionType` enum
member against the string `"stop"` and is therefore false even for a stop
action, so the short-circuit could never fire even if the attribute reads
succeeded. -/

theorem C2_stop_short_circuit_unreachable :
    test_filter filtC2 [emailAlert] =
      .error (.attributeError "FilterRule" "enabled") ∧
    (ruleSec.actions.any (fun a => pyEqActionTypeStr a.action_type "stop")) = false := by
  exact ⟨by decide, by decide⟩

/-- C3: the claim says a filter with two rules routing the same address
domain to two different folders receives exactly one cross-rule warning
naming both folders.  On such a filter the validator returns no issues at
all: `_check_rule_overlap` extracts the target folder via
`hasattr(action, "folder")`, which no `FilterAction` satisfies (the folder
is stored in `parameter`), so every rule is skipped and no warning can ever
be produced. -/

theorem C3_overlap_warning_never_emitted : validate_filter filtC3 = [] := by
  decide

/-- C4: the claim says each malformed category entry (missing keys or wrong
types) is skipped individually.  A wrong-typed entry that is a string makes
`_parse_category` call `.get` on a `str`, raising `AttributeError`, which
`except (KeyError, TypeError)` does not catch — the whole batch aborts
(second conjunct shows a number entry, whose `in` test raises the caught
`TypeError`, is indeed skipped while both well-formed neighbours survive). -/

theorem C4_wrong_typed_entry_aborts_batch :
    (raw_categories_of_response rawResponseWithStr).map List.length =
      .error (.attributeError "str" "get") ∧
    (raw_categories_of_response rawResponseWithNum).map List.length = .ok 2 := by
  exact ⟨by decide, by decide⟩

/-- C6: parsing `"subject:order,bestellt"` with `from_pattern_multi` yields
exactly the two header-contains conditions on subject with values "order"
and "bestellt" in that order, and the rule the generator builds from a
category carrying that pattern combines them with `"anyof"` (OR). -/

theorem C6_multi_pattern_expansion :
    FilterCondition.from_pattern_multi "subject:order,bestellt" =
      .ok [⟨.HEADER_CONTAINS, "subject", .CONTAINS, "order"⟩,
           ⟨.HEADER_CONTAINS, "subject", .CONTAINS, "bestellt"⟩] ∧
    create_rule_from_category
        (.mk "Shopping" "" ["subject:order,bestellt"] "Shopping" (mkRat 9 10) [] []) =
      .ok (some ⟨[⟨.HEADER_CONTAINS, "subject", .CONTAINS, "order"⟩,
                  ⟨.HEADER_CONTAINS, "subject", .CONTAINS, "bestellt"⟩],
                 [⟨.FILEINTO, some "Shopping"⟩, FilterAction.stop],
                 "anyof", "Shopping", ""⟩) := by
  exact ⟨by decide, by decide⟩

/-- C8: with the two categories Security and Shopping (confidence 0.9,
patterns `subject:alert` / `subject:order`), in either input order, the
generated filter places the Security rule before the Shopping rule
(priority bucket 0 versus 30). -/

theorem C8_priority_order :
    (generate_filter_from_categories (mkRat 1 2)
      [.mk "Security" "" ["subject:alert"] "Security" (mkRat 9 10) [] [],
       .mk "Shopping" "" ["subject:order"] "Shopping" (mkRat 9 10) [] []]).map
        (fun f => f.rules.map FilterRule.name) = .ok ["Security", "Shopping"] ∧
    (generate_filter_from_categories (mkRat 1 2)
      [.mk "Shopping" "" ["subject:order"] "Shopping" (mkRat 9 10) [] [],
       .mk "Security" "" ["subject:alert"] "Security" (mkRat 9 10) [] []]).map
        (fun f => f.rules.map FilterRule.name) = .ok ["Security", "Shopping"] := by
  exact ⟨by decide, by decide⟩

/-- Characters of `Char.ofNat n` for a small valid code point. -/

theorem toNat_ofNat_valid {n : Nat} (h : n < 55296) : (Char.ofNat n).toNat = n := by
  rw [Char.ofNat, dif_pos (Or.inl h)]
  rfl

/-- Lower-casing a character yields a dot only for a dot. -/

theorem pyCharLower_eq_dot {c : Char} (h : pyCharLower c = '.') : c = '.' := by
  simp only [pyCharLower, Char.toLower] at h
  split at h
  · exfalso
    rename_i hn
    have h1 : 65 ≤ c.toNat := hn.1
    have h2 : c.toNat ≤ 90 := hn.2
    have hv : (Char.ofNat (c.toNat + 32)).toNat = c.toNat + 32 :=
      toNat_ofNat_valid (by omega)
    rw [h] at hv
    have hd : ('.' : Char).toNat = 46 := by decide
    omega
  · exact h

/-- Stripping only removes characters. -/

theorem mem_of_mem_pyStripL {x : Char} {l : List Char} (h : x ∈ pyStripL l) :
    x ∈ l := by
  unfold pyStripL at h
  rw [List.mem_reverse] at h
  have h1 := (List.dropWhile_sublist _).subset h
  rw [List.mem_reverse] at h1
  exact (List.dropWhile_sublist _).subset h1

/-- C7: every domain in the placeholder set or the generic set fails
`is_valid_domain`, and every domain string containing no "." fails it as
well (lower-casing and stripping cannot introduce a dot, so the "." check
rejects it whenever the set memberships did not already). -/

theorem C7_domain_validation_rejections :
    (∀ d ∈ INVALID_DOMAINS ++ GENERIC_DOMAINS, is_valid_domain d = false) ∧
    (∀ s : String, s.data.contains '.' = false → is_valid_domain s = false) := by
  constructor
  · decide
  · intro s h
    have hs : '.' ∉ s.data := by
      intro hm
      rw [Bool.eq_false_iff] at h
      exact h (List.elem_eq_true_of_mem hm)
    have hdot : (pyStrip (pyLower s)).data.contains '.' = false := by
      rw [Bool.eq_false_iff]
      intro hc
      have hmem : '.' ∈ (pyStrip (pyLower s)).data :=
        List.mem_of_elem_eq_true hc
      have hmem2 : '.' ∈ (pyLower s).data := mem_of_mem_pyStripL hmem
      simp only [pyLower] at hmem2
      rw [List.mem_map] at hmem2
      obtain ⟨c, hcmem, hceq⟩ := hmem2
      rw [pyCharLower_eq_dot hceq] at hcmem
      exact hs hcmem
    simp only [is_valid_domain]
    rw [hdot]
    simp

/-- Witness for C7: the second part applied at the dot-free string
"localcache". -/

theorem C7_domain_validation_rejections_witness :
    ("localcache".data.contains '.' = false) ∧
      is_valid_domain "localcache" = false :=
  ⟨by decide, C7_domain_validation_rejections.2 "localcache" (by decide)⟩

/-- Binding an ok value steps the continuation. -/

theorem except_bind_ok {ε α β : Type} (a : α) (f : α → Except ε β) :
    (Except.ok a >>= f) = f a := rfl

/-- Binding an error propagates it. -/

theorem except_bind_error {ε α β : Type} (e : ε) (f : α → Except ε β) :
    ((Except.error e : Except ε α) >>= f) = .error e := rfl

/-- Membership is preserved by one stable-insertion step. -/

theorem mem_insertStable {α : Type} (key : α → Nat) (x a : α) (l : List α) :
    a ∈ insertStable key x l ↔ a = x ∨ a ∈ l := by
  induction l with
  | nil => simp [insertStable]
  | cons y ys ih =>
    unfold insertStable
    split
    · simp [List.mem_cons]
    · simp only [List.mem_cons, ih]
      tauto

/-- Sorting preserves membership. -/

theorem mem_pySortedByKey {α : Type} (key : α → Nat) (a : α) (l : List α) :
    a ∈ pySortedByKey key l ↔ a ∈ l := by
  induction l with
  | nil => simp [pySortedByKey]
  | cons x xs ih =>
    unfold pySortedByKey
    rw [mem_insertStable]
    simp [ih]

/-- `FilterAction.fileinto` succeeds exactly on a non-empty folder. -/

theorem fileinto_eq (folder : String) :
    FilterAction.fileinto folder =
      if folder = "" then .error (.valueError "requires a parameter")
      else .ok ⟨.FILEINTO, some folder⟩ := by
  unfold FilterAction.fileinto FilterAction.make
  by_cases h : folder = ""
  · subst h; simp
  · simp [h]

/-- Case analysis of `_create_rule_from_category`: no conditions means no
rule, an empty suggested folder with conditions raises, anything else
produces the generator-shaped rule. -/

theorem create_rule_eq (c : CategoryPattern) :
    create_rule_from_category c =
      if categoryConditions c = [] then .ok none
      else if c.suggested_folder = "" then
        .error (.valueError "requires a parameter")
      else
        .ok (some ⟨categoryConditions c,
                   [⟨.FILEINTO, some c.suggested_folder⟩, FilterAction.stop],
                   "anyof", c.name, c.description⟩) := by
  unfold create_rule_from_category
  by_cases hp : c.patterns.isEmpty
  · have hpe : c.patterns = [] := List.isEmpty_iff.mp hp
    have : categoryConditions c = [] := by simp [categoryConditions, hpe]
    simp [hp, this]
  · have hcc : ((c.patterns.map condsOfPattern).flatten) = categoryConditions c := rfl
    simp only [hp, Bool.false_eq_true, if_false]
    by_cases hc : categoryConditions c = []
    · simp [hcc, hc, List.isEmpty_iff]
    · have hne : ((c.patterns.map condsOfPattern).flatten).isEmpty = false := by
        rw [Bool.eq_false_iff]
        intro hT
        exact hc (by rw [← hcc]; exact List.isEmpty_iff.mp hT)
      rw [hne]
      simp only [Bool.false_eq_true, if_false, if_neg hc]
      rw [fileinto_eq]
      by_cases hf : c.suggested_folder = ""
      · simp [hf]
        rfl
      · rw [if_neg hf, if_neg hf, except_bind_ok]
        unfold FilterRule.create
        rw [hne]
        simp [hcc]

/-- Errors of a mapped `Except` are errors of the original. -/

theorem except_map_error_iff {ε α β : Type} (f : α → β) (x : Except ε α) (e : ε) :
    (x.map f = .error e) ↔ x = .error e := by
  cases x <;> simp [Except.map]

/-- Error analysis of a bind followed by a map. -/

theorem bind_map_error_iff {ε α β γ : Type} (x : Except ε α) (y : Except ε β)
    (f : α → β → γ) :
    (∃ e, (x >>= fun a => y.map (f a)) = .error e) ↔
      (∃ e, x = .error e) ∨ (∃ e, y = .error e) := by
  cases x <;> cases y <;> simp [Except.map, except_bind_ok, except_bind_error]

/-- One step of the subcategory loop, by the three cases of
`create_rule_from_category`. -/

theorem collectSubRules_cons (sc : CategoryPattern) (rest : List CategoryPattern) :
    collectSubRules (sc :: rest) =
      if categoryConditions sc = [] then collectSubRules rest
      else if sc.suggested_folder = "" then
        .error (.valueError "requires a parameter")
      else (collectSubRules rest).map (fun rs =>
        ⟨categoryConditions sc,
         [⟨.FILEINTO, some sc.suggested_folder⟩, FilterAction.stop],
         "anyof", sc.name, sc.description⟩ :: rs) := by
  conv_lhs => rw [collectSubRules]
  rw [create_rule_eq sc]
  by_cases h1 : categoryConditions sc = []
  · rw [if_pos h1, if_pos h1, except_bind_ok]
    cases collectSubRules rest <;> rfl
  · rw [if_neg h1, if_neg h1]
    by_cases h2 : sc.suggested_folder = ""
    · rw [if_pos h2, if_pos h2, except_bind_error]
    · rw [if_neg h2, if_neg h2, except_bind_ok]
      cases collectSubRules rest <;> rfl

/-- The subcategory loop raises exactly when some subcategory has
conditions but an empty folder. -/

theorem collectSubRules_error_iff (l : List CategoryPattern) :
    (∃ e, collectSubRules l = .error e) ↔
      ∃ c ∈ l, categoryConditions c ≠ [] ∧ c.suggested_folder = "" := by
  induction l with
  | nil => simp [collectSubRules]
  | cons sc rest ih =>
    rw [collectSubRules_cons]
    by_cases h1 : categoryConditions sc = []
    · rw [if_pos h1]
      simp [h1, ih]
    · rw [if_neg h1]
      by_cases h2 : sc.suggested_folder = ""
      · rw [if_pos h2]
        simp [h1, h2]
      · rw [if_neg h2]
        simp only [except_map_error_iff]
        simp [h1, h2, ih]

/-- When the subcategory loop returns, its result is empty exactly when
every subcategory contributed no conditions. -/

theorem collectSubRules_ok_nil_iff (l : List CategoryPattern)
    (rs : List FilterRule) (h : collectSubRules l = .ok rs) :
    rs = [] ↔ ∀ c ∈ l, categoryConditions c = [] := by
  induction l generalizing rs with
  | nil =>
    unfold collectSubRules at h
    cases h
    simp
  | cons sc rest ih =>
    rw [collectSubRules_cons] at h
    by_cases h1 : categoryConditions sc = []
    · rw [if_pos h1] at h
      rw [ih rs h]
      simp [h1]
    · rw [if_neg h1] at h
      by_cases h2 : sc.suggested_folder = ""
      · rw [if_pos h2] at h
        cases h
      · rw [if_neg h2] at h
        cases hres : collectSubRules rest with
        | error e => rw [hres] at h; simp [Except.map] at h
        | ok rs0 =>
          rw [hres] at h
          simp only [Except.map] at h
          cases h
          simp [h1]

/-- Membership in the processed list of a cons cell. -/

theorem mem_processedWithSubs_cons (mc : ℚ) (c : CategoryPattern)
    (rest : List CategoryPattern) (x : CategoryPattern) :
    x ∈ processedWithSubs mc (c :: rest) ↔
      (x = c ∨ x ∈ confSubcategories mc c ∨ x ∈ processedWithSubs mc rest) := by
  simp [processedWithSubs]

/-- One step of the main generator loop. -/

theorem collectRules_cons (mc : ℚ) (c : CategoryPattern)
    (rest : List CategoryPattern) :
    collectRules mc (c :: rest) =
      if categoryConditions c = [] then
        (collectSubRules (pySortedByKey get_category_priority
            (confSubcategories mc c))) >>= (fun srs =>
          (collectRules mc rest).map (fun rs => srs ++ rs))
      else if c.suggested_folder = "" then
        .error (.valueError "requires a parameter")
      else
        (collectSubRules (pySortedByKey get_category_priority
            (confSubcategories mc c))) >>= (fun srs =>
          (collectRules mc rest).map (fun rs =>
            ⟨categoryConditions c,
             [⟨.FILEINTO, some c.suggested_folder⟩, FilterAction.stop],
             "anyof", c.name, c.description⟩ :: (srs ++ rs))) := by
  conv_lhs => rw [collectRules]
  rw [create_rule_eq c]
  unfold confSubcategories
  by_cases h1 : categoryConditions c = []
  · rw [if_pos h1, if_pos h1, except_bind_ok]
    cases collectSubRules (pySortedByKey get_category_priority
        (c.subcategories.filter (fun sc => mc ≤ sc.confidence))) with
    | error e => rfl
    | ok srs => rw [except_bind_ok, except_bind_ok]; cases collectRules mc rest <;> rfl
  · rw [if_neg h1, if_neg h1]
    by_cases h2 : c.suggested_folder = ""
    · rw [if_pos h2, if_pos h2, except_bind_error]
    · rw [if_neg h2, if_neg h2, except_bind_ok]
      cases collectSubRules (pySortedByKey get_category_priority
          (c.subcategories.filter (fun sc => mc ≤ sc.confidence))) with
      | error e => rfl
      | ok srs => rw [except_bind_ok, except_bind_ok]; cases collectRules mc rest <;> rfl

/-- The main generator loop raises exactly when some processed category has
conditions but an empty folder. -/

theorem collectRules_error_iff (mc : ℚ) (l : List CategoryPattern) :
    (∃ e, collectRules mc l = .error e) ↔
      ∃ c ∈ processedWithSubs mc l,
        categoryConditions c ≠ [] ∧ c.suggested_folder = "" := by
  induction l with
  | nil => simp [collectRules, processedWithSubs]
  | cons c rest ih =>
    rw [collectRules_cons]
    have hsub :
        (∃ e, collectSubRules (pySortedByKey get_category_priority
            (confSubcategories mc c)) = .error e) ↔
          ∃ sc ∈ confSubcategories mc c,
            categoryConditions sc ≠ [] ∧ sc.suggested_folder = "" := by
      rw [collectSubRules_error_iff]
      constructor
      · rintro ⟨sc, hm, hp⟩
        exact ⟨sc, (mem_pySortedByKey _ _ _).mp hm, hp⟩
      · rintro ⟨sc, hm, hp⟩
        exact ⟨sc, (mem_pySortedByKey _ _ _).mpr hm, hp⟩
    by_cases h1 : categoryConditions c = []
    · rw [if_pos h1, bind_map_error_iff, hsub, ih]
      constructor
      · rintro (⟨sc, hm, hp⟩ | ⟨x, hm, hp⟩)
        · exact ⟨sc, (mem_processedWithSubs_cons mc c rest sc).mpr (.inr (.inl hm)), hp⟩
        · exact ⟨x, (mem_processedWithSubs_cons mc c rest x).mpr (.inr (.inr hm)), hp⟩
      · rintro ⟨x, hm, hp⟩
        rcases (mem_processedWithSubs_cons mc c rest x).mp hm with hx | hx | hx
        · subst hx; exact absurd hp.1 (by simp [h1])
        · exact .inl ⟨x, hx, hp⟩
        · exact .inr ⟨x, hx, hp⟩
    · rw [if_neg h1]
      by_cases h2 : c.suggested_folder = ""
      · rw [if_pos h2]
        constructor
        · intro _
          exact ⟨c, (mem_processedWithSubs_cons mc c rest c).mpr (.inl rfl), h1, h2⟩
        · intro _
          exact ⟨_, rfl⟩
      · rw [if_neg h2, bind_map_error_iff, hsub, ih]
        constructor
        · rintro (⟨sc, hm, hp⟩ | ⟨x, hm, hp⟩)
          · exact ⟨sc, (mem_processedWithSubs_cons mc c rest sc).mpr (.inr (.inl hm)), hp⟩
          · exact ⟨x, (mem_processedWithSubs_cons mc c rest x).mpr (.inr (.inr hm)), hp⟩
        · rintro ⟨x, hm, hp⟩
          rcases (mem_processedWithSubs_cons mc c rest x).mp hm with hx | hx | hx
          · subst hx; exact absurd hp.2 h2
          · exact .inl ⟨x, hx, hp⟩
          · exact .inr ⟨x, hx, hp⟩

/-- When the main generator loop returns, its rule list is empty exactly
when every processed category contributed no conditions. -/

theorem collectRules_ok_nil_iff (mc : ℚ) (l : List CategoryPattern)
    (rs : List FilterRule) (h : collectRules mc l = .ok rs) :
    rs = [] ↔ ∀ c ∈ processedWithSubs mc l, categoryConditions c = [] := by
  induction l generalizing rs with
  | nil =>
    unfold collectRules at h
    cases h
    simp [processedWithSubs]
  | cons c rest ih =>
    rw [collectRules_cons] at h
    have hforall : ∀ P : CategoryPattern → Prop,
        ((∀ x ∈ processedWithSubs mc (c :: rest), P x) ↔
          (P c ∧ (∀ x ∈ confSubcategories mc c, P x) ∧
            (∀ x ∈ processedWithSubs mc rest, P x))) := by
      intro P
      constructor
      · intro hall
        refine ⟨hall c ((mem_processedWithSubs_cons mc c rest c).mpr (.inl rfl)), ?_, ?_⟩
        · intro x hx
          exact hall x ((mem_processedWithSubs_cons mc c rest x).mpr (.inr (.inl hx)))
        · intro x hx
          exact hall x ((mem_processedWithSubs_cons mc c rest x).mpr (.inr (.inr hx)))
      · rintro ⟨hc, hsub, hrest⟩ x hx
        rcases (mem_processedWithSubs_cons mc c rest x).mp hx with hx | hx | hx
        · subst hx; exact hc
        · exact hsub x hx
        · exact hrest x hx
    by_cases h1 : categoryConditions c = []
    · rw [if_pos h1] at h
      cases hs : collectSubRules (pySortedByKey get_category_priority
          (confSubcategories mc c)) with
      | error e => rw [hs, except_bind_error] at h; cases h
      | ok srs =>
        rw [hs, except_bind_ok] at h
        cases hr : collectRules mc rest with
        | error e => rw [hr] at h; simp [Except.map] at h
        | ok rs0 =>
          rw [hr] at h
          simp only [Except.map] at h
          cases h
          rw [hforall]
          have hsrs := collectSubRules_ok_nil_iff _ _ hs
          constructor
          · intro happ
            rcases List.append_eq_nil.mp happ with ⟨hsn, hrn⟩
            refine ⟨h1, ?_, ?_⟩
            · intro x hx
              exact (hsrs.mp hsn) x ((mem_pySortedByKey _ _ _).mpr hx)
            · exact (ih rs0 hr).mp hrn
          · rintro ⟨_, hsub, hrest⟩
            have hsn : srs = [] := by
              rw [hsrs]
              intro x hx
              exact hsub x ((mem_pySortedByKey _ _ _).mp hx)
            have hrn : rs0 = [] := (ih rs0 hr).mpr hrest
            rw [hsn, hrn]
            rfl
    · rw [if_neg h1] at h
      by_cases h2 : c.suggested_folder = ""
      · rw [if_pos h2] at h
        cases h
      · rw [if_neg h2] at h
        cases hs : collectSubRules (pySortedByKey get_category_priority
            (confSubcategories mc c)) with
        | error e => rw [hs, except_bind_error] at h; cases h
        | ok srs =>
          rw [hs, except_bind_ok] at h
          cases hr : collectRules mc rest with
          | error e => rw [hr] at h; simp [Except.map] at h
          | ok rs0 =>
            rw [hr] at h
            simp only [Except.map] at h
            cases h
            rw [hforall]
            simp [h1]

/-- C5 (counterexample): the claim says `generate_filter_from_categories`
fails only on an empty list, an all-under-confidence list, or when no
usable rule arises, and returns a `SieveFilter` in every other case.  The
category "Good" alone yields a filter with one rule, so a list containing
it is in the claimed success region; yet adding the category "Bad", whose
patterns parse fine but whose `suggested_folder` is empty, makes the
`FilterAction.fileinto` construction raise an uncaught error and the whole
call fails. -/

theorem C5_counterexample :
    (generate_filter_from_categories (mkRat 1 2)
        [⟨"Good", "", ["subject:alert"], "Alerts", mkRat 9 10, [], []⟩]).map
      (fun f => f.rules.length) = .ok 1 ∧
    generate_filter_from_categories (mkRat 1 2)
        [⟨"Good", "", ["subject:alert"], "Alerts", mkRat 9 10, [], []⟩,
         ⟨"Bad", "", ["subject:order"], "", mkRat 9 10, [], []⟩] =
      .error (.valueError "requires a parameter") := by
  exact ⟨by decide, by decide⟩

/-- Sorting the outer category list does not change the processed set. -/

theorem mem_processedWithSubs_sorted (mc : ℚ) (l : List CategoryPattern)
    (x : CategoryPattern) :
    x ∈ processedWithSubs mc (pySortedByKey get_category_priority l) ↔
      x ∈ processedWithSubs mc l := by
  simp only [processedWithSubs, List.mem_flatten, List.mem_map]
  constructor
  · rintro ⟨s, ⟨a, ha, rfl⟩, hx⟩
    exact ⟨a :: confSubcategories mc a, ⟨a, (mem_pySortedByKey _ _ _).mp ha, rfl⟩, hx⟩
  · rintro ⟨s, ⟨a, ha, rfl⟩, hx⟩
    exact ⟨a :: confSubcategories mc a, ⟨a, (mem_pySortedByKey _ _ _).mpr ha, rfl⟩, hx⟩

/-- C5 (amended): `generate_filter_from_categories` fails exactly when the
category list is empty, or no category meets `min_confidence`, or some
processed category (a surviving category or one of its confidence-surviving
direct subcategories) has parseable conditions but an empty suggested
folder (the uncaught `fileinto` validation error), or every processed
category contributes no conditions; in every other case it returns a
`SieveFilter`. -/

theorem C5_failure_characterisation (mc : ℚ) (cats : List CategoryPattern) :
    (∃ e, generate_filter_from_categories mc cats = .error e) ↔
      (cats = [] ∨
       confSurvivors mc cats = [] ∨
       (∃ c ∈ processedWithSubs mc (confSurvivors mc cats),
          categoryConditions c ≠ [] ∧ c.suggested_folder = "") ∨
       (∀ c ∈ processedWithSubs mc (confSurvivors mc cats),
          categoryConditions c = [])) := by
  simp only [generate_filter_from_categories]
  by_cases hc : cats.isEmpty
  · have hce : cats = [] := List.isEmpty_iff.mp hc
    simp [hc, hce]
  · have hcb : cats.isEmpty = false := Bool.not_eq_true _ ▸ Bool.of_not_eq_true hc
    rw [hcb]
    have hcne : ¬ cats = [] := fun hh => hc (by rw [hh]; rfl)
    simp only [Bool.false_eq_true, if_false]
    have hsurv : cats.filter (fun c => mc ≤ c.confidence) = confSurvivors mc cats := rfl
    rw [hsurv]
    by_cases hv : confSurvivors mc cats = []
    · rw [hv]
      simp [hcne, hv]
    · have hvb : (confSurvivors mc cats).isEmpty = false := by
        rw [Bool.eq_false_iff]
        intro hT
        exact hv (List.isEmpty_iff.mp hT)
      rw [hvb]
      simp only [Bool.false_eq_true, if_false]
      cases hcr : collectRules mc (pySortedByKey get_category_priority
          (confSurvivors mc cats)) with
      | error e =>
        rw [except_bind_error]
        have h3 : ∃ c ∈ processedWithSubs mc (confSurvivors mc cats),
            categoryConditions c ≠ [] ∧ c.suggested_folder = "" := by
          have := (collectRules_error_iff mc _).mp ⟨e, hcr⟩
          rcases this with ⟨c, hm, hp⟩
          exact ⟨c, (mem_processedWithSubs_sorted mc _ c).mp hm, hp⟩
        simp [h3]
      | ok rules =>
        rw [except_bind_ok]
        have hno3 : ¬ ∃ c ∈ processedWithSubs mc (confSurvivors mc cats),
            categoryConditions c ≠ [] ∧ c.suggested_folder = "" := by
          intro ⟨c, hm, hp⟩
          have : ∃ e, collectRules mc (pySortedByKey get_category_priority
              (confSurvivors mc cats)) = .error e :=
            (collectRules_error_iff mc _).mpr
              ⟨c, (mem_processedWithSubs_sorted mc _ c).mpr hm, hp⟩
          rcases this with ⟨e, he⟩
          rw [hcr] at he
          cases he
        have hnil := collectRules_ok_nil_iff mc _ rules hcr
        by_cases hr : rules = []
        · have h4 : ∀ c ∈ processedWithSubs mc (confSurvivors mc cats),
              categoryConditions c = [] := by
            intro c hm
            exact (hnil.mp hr) c ((mem_processedWithSubs_sorted mc _ c).mpr hm)
          have hrb : rules.isEmpty = true := by rw [hr]; rfl
          rw [hrb]
          simp only [if_true, eq_self_iff_true]
          simp [hcne, hv]
          exact Or.inr h4
        · have h4 : ¬ ∀ c ∈ processedWithSubs mc (confSurvivors mc cats),
              categoryConditions c = [] := by
            intro hall
            exact hr (hnil.mpr (fun c hm =>
              hall c ((mem_processedWithSubs_sorted mc _ c).mp hm)))
          have hrb : rules.isEmpty = false := by
            rw [Bool.eq_false_iff]
            intro hT
            exact hr (List.isEmpty_iff.mp hT)
          rw [hrb]
          simp only [Bool.false_eq_true, if_false]
          unfold SieveFilter.create
          simp [hcne, hv, hno3, h4]

/-- Membership in the dedup worker: in the remainder and not yet seen. -/

theorem mem_dedupFirstAux (seen l : List String) (x : String) :
    x ∈ dedupFirstAux seen l ↔ (x ∈ l ∧ x ∉ seen) := by
  induction l generalizing seen with
  | nil => simp [dedupFirstAux]
  | cons a as ih =>
    unfold dedupFirstAux
    by_cases h : seen.contains a
    · have ha : a ∈ seen := List.mem_of_elem_eq_true h
      rw [if_pos h, ih]
      constructor
      · rintro ⟨hx, hs⟩
        exact ⟨List.mem_cons_of_mem _ hx, hs⟩
      · rintro ⟨hx, hs⟩
        rcases List.mem_cons.mp hx with rfl | hx2
        · exact absurd ha hs
        · exact ⟨hx2, hs⟩
    · have ha : a ∉ seen := fun hm => h (List.elem_eq_true_of_mem hm)
      rw [if_neg h]
      by_cases hxa : x = a
      · subst hxa
        simp [ha]
      · constructor
        · intro hmem
          rcases List.mem_cons.mp hmem with rfl | hmem2
          · exact absurd rfl hxa
          · obtain ⟨hx, hs⟩ := (ih (a :: seen)).mp hmem2
            exact ⟨List.mem_cons_of_mem _ hx,
              fun hm => hs (List.mem_cons_of_mem _ hm)⟩
        · rintro ⟨hmem, hs⟩
          rcases List.mem_cons.mp hmem with rfl | hx2
          · exact absurd rfl hxa
          · refine List.mem_cons_of_mem _ ((ih (a :: seen)).mpr ⟨hx2, ?_⟩)
            intro hm
            rcases List.mem_cons.mp hm with rfl | hm2
            · exact hxa rfl
            · exact hs hm2

/-- The dedup worker has no duplicates. -/

theorem nodup_dedupFirstAux (seen l : List String) :
    (dedupFirstAux seen l).Nodup := by
  induction l generalizing seen with
  | nil => simp [dedupFirstAux]
  | cons a as ih =>
    unfold dedupFirstAux
    by_cases h : seen.contains a
    · rw [if_pos h]; exact ih seen
    · rw [if_neg h]
      rw [List.nodup_cons]
      refine ⟨fun hm => ?_, ih (a :: seen)⟩
      exact ((mem_dedupFirstAux _ _ _).mp hm).2 (List.mem_cons_self a seen)

/-- `dedupFirst` preserves membership. -/

theorem mem_dedupFirst (l : List String) (x : String) :
    x ∈ dedupFirst l ↔ x ∈ l := by
  unfold dedupFirst
  rw [mem_dedupFirstAux]
  simp

/-- `dedupFirst` has no duplicates. -/

theorem nodup_dedupFirst (l : List String) : (dedupFirst l).Nodup :=
  nodup_dedupFirstAux [] l

/-- A `filterMap` over a duplicate-free list whose function fires at exactly
one member produces that single image. -/

theorem filterMap_eq_single {α β : Type} (f : α → Option β) :
    ∀ (l : List α) (d : α) (p : β), l.Nodup → d ∈ l → f d = some p →
      (∀ x ∈ l, x ≠ d → f x = none) → l.filterMap f = [p] := by
  intro l
  induction l with
  | nil => intro d p _ hd; cases hd
  | cons a as ih =>
    intro d p hnd hd hf hothers
    rcases List.mem_cons.mp hd with rfl | hd2
    · rw [List.filterMap_cons_some hf]
      have hnone : ∀ x ∈ as, f x = none := by
        intro x hx
        have hxd : x ≠ d := by
          intro he; subst he
          exact absurd hx (List.nodup_cons.mp hnd).1
        exact hothers x (List.mem_cons_of_mem _ hx) hxd
      rw [List.filterMap_eq_nil_iff.mpr hnone]
    · have had : a ≠ d := by
        intro he; subst he
        exact absurd hd2 (List.nodup_cons.mp hnd).1
      rw [List.filterMap_cons_none (hothers a (List.mem_cons_self _ _) had)]
      exact ih d p (List.nodup_cons.mp hnd).2 hd2 hf
        (fun x hx hxd => hothers x (List.mem_cons_of_mem _ hx) hxd)

/-- C9 (counterexample): the claim says a collection in which exactly one
sender domain reaches `min_frequency` and no other signal clears its floor
yields exactly one pattern.  In `c9emails` (61 emails, domain dup.com
occurring 3 times, every other domain once, all subjects empty, all senders
distinct) the dup.com pattern is produced by the domain pass but its
confidence `min(1, 3 / (61 * 0.1)) = 30/61 < 0.5` fails the detector's
`min_confidence` filter, so `detect_patterns` returns the empty list. -/

theorem C9_counterexample :
    detect_patterns 3 (mkRat 1 2) 5 c9emails = [] ∧
    domCount c9emails "dup.com" = 3 ∧ c9emails.length = 61 := by
  exact ⟨by decide, by decide, by decide⟩

/-- C9 (amended): when additionally the domain pattern's confidence
`min(1, count / (total * 0.1))` reaches `min_confidence`, the detector
returns exactly one pattern, of kind "sender_domain", for that domain. -/

theorem C9_single_domain_pattern (mf : Nat) (mc : ℚ) (mx : Nat)
    (emails : List Email) (d : String)
    (hpos : 0 < domCount emails d)
    (hd : mf ≤ domCount emails d)
    (huniq : ∀ x : String, mf ≤ domCount emails x → x = d)
    (hkw : ∀ w : String, kwCount emails w < mf)
    (hsend : ∀ s : String, sendCount emails s < mf + 2)
    (hconf : mc ≤ pyMin 1 (ratDiv (domCount emails d : ℚ)
        (ratMul (emails.length : ℚ) (mkRat 1 10)))) :
    ∃ p : DetectedPattern, detect_patterns mf mc mx emails = [p] ∧
      p.pattern_type = "sender_domain" ∧ p.value = d := by
  have hne : emails ≠ [] := by
    intro he
    rw [he] at hpos
    simp [domCount] at hpos
  have hneb : emails.isEmpty = false := by
    rw [Bool.eq_false_iff]
    intro hT
    exact hne (List.isEmpty_iff.mp hT)
  have hdmem : d ∈ domainKeys emails := by
    unfold domainKeys
    rw [mem_dedupFirst]
    unfold domCount at hpos
    rcases List.exists_mem_of_ne_nil _
        (List.length_pos.mp hpos) with ⟨e, he⟩
    rcases List.mem_filter.mp he with ⟨hee, hdome⟩
    rw [List.mem_map]
    exact ⟨e, hee, by simpa using hdome⟩
  have hdompass : detect_sender_domain_patterns mf mx emails =
      [⟨"sender_domain", d, domCount emails d, domCount emails d,
        (domSubjects emails d).take mx,
        pyMin 1 (ratDiv (domCount emails d : ℚ)
          (ratMul (emails.length : ℚ) (mkRat 1 10)))⟩] := by
    simp only [detect_sender_domain_patterns]
    apply filterMap_eq_single _ _ d
    · exact nodup_dedupFirst _
    · exact hdmem
    · show (if mf ≤ domCount emails d then _ else none) = _
      rw [if_pos hd]
    · intro x hx hxd
      show (if mf ≤ domCount emails x then _ else none) = none
      rw [if_neg (fun hle => hxd (huniq x hle))]
  have hkwpass : detect_subject_keyword_patterns mf mx emails = [] := by
    simp only [detect_subject_keyword_patterns]
    rw [List.filterMap_eq_nil_iff]
    intro w hw
    show (if mf ≤ kwCount emails w then _ else none) = none
    rw [if_neg (by have := hkw w; omega)]
  have hsendpass : detect_sender_address_patterns mf mx emails = [] := by
    simp only [detect_sender_address_patterns]
    rw [List.filterMap_eq_nil_iff]
    intro a ha
    show (if mf + 2 ≤ sendCount emails a then _ else none) = none
    rw [if_neg (by have := hsend a; omega)]
  refine ⟨⟨"sender_domain", d, domCount emails d, domCount emails d,
      (domSubjects emails d).take mx,
      pyMin 1 (ratDiv (domCount emails d : ℚ)
        (ratMul (emails.length : ℚ) (mkRat 1 10)))⟩, ?_, rfl, rfl⟩
  unfold detect_patterns
  rw [hneb]
  simp only [Bool.false_eq_true, if_false]
  rw [hdompass, hkwpass, hsendpass]
  simp only [List.append_nil]
  rw [List.filter_cons, if_pos (by simpa using hconf)]
  rfl

/-- Witness for the amended C9 applied at a concrete collection. -/

theorem C9_single_domain_pattern_witness :
    (0 < domCount w9emails "x.com" ∧ 3 ≤ domCount w9emails "x.com") ∧
    (∃ p : DetectedPattern, detect_patterns 3 (mkRat 1 2) 5 w9emails = [p] ∧
      p.pattern_type = "sender_domain" ∧ p.value = "x.com") := by
  refine ⟨⟨by decide, by decide⟩, ?_⟩
  apply C9_single_domain_pattern 3 (mkRat 1 2) 5 w9emails "x.com"
    (by decide) (by decide)
  · intro x hx
    by_cases hxe : x = "x.com"
    · exact hxe
    · exfalso
      have hz : domCount w9emails x = 0 := by
        unfold domCount
        rw [List.length_eq_zero, List.filter_eq_nil_iff]
        intro e he
        have hdom : emailDomain e = "x.com" := by
          rcases List.mem_cons.mp he with rfl | he2
          · decide
          rcases List.mem_cons.mp he2 with rfl | he3
          · decide
          rcases List.mem_cons.mp he3 with rfl | he4
          · decide
          · cases he4
        rw [hdom]
        simp [Ne.symm hxe]
      omega
  · intro w
    have hz : kwCount w9emails w = 0 := by
      unfold kwCount
      rw [List.length_eq_zero, List.filter_eq_nil_iff]
      intro e he
      have hwords : wordsOf e = [] := by
        rcases List.mem_cons.mp he with rfl | he2
        · decide
        rcases List.mem_cons.mp he2 with rfl | he3
        · decide
        rcases List.mem_cons.mp he3 with rfl | he4
        · decide
        · cases he4
      rw [hwords]
      simp
    omega
  · intro a
    have hle : sendCount w9emails a ≤ 3 := by
      have h1 : sendCount w9emails a ≤ w9emails.length :=
        List.length_filter_le _ _
      simpa [w9emails] using h1
    omega
  · decide

/-- With no rules the email loop returns its state unchanged. -/

theorem emailsLoop_nil_rules (es : List Email) (st : MatchState) :
    emailsLoop [] es st = .ok st := by
  induction es with
  | nil => rfl
  | cons e es ih =>
    unfold emailsLoop
    rw [show rulesLoop e [] st = .ok st from rfl, except_bind_ok]
    exact ih

/-- C10 (counterexample): the claim says an email matching several no-stop
rules is counted once per match, making `matched_emails` exceed the number
of distinct emails and `match_rate` exceed 1.0.  In that very scenario the
matcher raises `AttributeError` on `rule.enabled` before testing anything,
so no such `FilterTestResult` is ever produced. -/

theorem C10_counterexample :
    test_filter filtC10 [emailAlert] =
      .error (.attributeError "FilterRule" "enabled") := by decide

/-- C10 (amended): `test_filter` returns a `FilterTestResult` only when the
email collection is empty or the filter has no rules; in every returned
result `matched_emails` equals the length of `match_results` and
`match_rate` equals `matched_emails / total_emails` — but that count is
always zero, so it can never exceed the number of distinct emails. -/

theorem C10_returned_result_counts (f : SieveFilter) (emails : List Email)
    (res : FilterTestResult) (h : test_filter f emails = .ok res) :
    res.matched_emails = res.match_results.length ∧
    res.match_rate = ratDiv (res.matched_emails : ℚ) (res.total_emails : ℚ) ∧
    res.matched_emails = 0 := by
  unfold test_filter at h
  by_cases he : emails.isEmpty
  · rw [if_pos he] at h
    cases h
    refine ⟨rfl, ?_, rfl⟩
    show (0:ℚ) = ratDiv ((0:Nat):ℚ) ((0:Nat):ℚ)
    decide
  · rw [if_neg he] at h
    cases hr : f.rules with
    | nil =>
      rw [hr] at h
      rw [emailsLoop_nil_rules, except_bind_ok] at h
      cases h
      refine ⟨rfl, ?_, rfl⟩
      show (if emails.isEmpty then (0:ℚ) else _) = _
      rw [if_neg he]
    | cons r rs =>
      rw [hr] at h
      cases emails with
      | nil => simp at he
      | cons e es =>
        have hloop : emailsLoop (r :: rs) (e :: es)
            ⟨dictInitZero (r :: rs), []⟩ =
              .error (.attributeError "FilterRule" "enabled") := rfl
        rw [hloop, except_bind_error] at h
        cases h

/-- Witness for the amended C10 at a concrete run. -/

theorem C10_returned_result_counts_witness :
    (test_filter filtNoRules [] = .ok resEmptyRun) ∧
    (resEmptyRun.matched_emails = resEmptyRun.match_results.length ∧
     resEmptyRun.match_rate =
       ratDiv (resEmptyRun.matched_emails : ℚ) (resEmptyRun.total_emails : ℚ) ∧
     resEmptyRun.matched_emails = 0) :=
  ⟨by decide, C10_returned_result_counts filtNoRules [] resEmptyRun (by decide)⟩
